import Mathlib

/-!
Shallow embedding of the lapp_crawler repository (dear_crawler.py,
singapore_crawler.py, lucky_number_updater.py) together with the
verification of its specification.

Python dictionaries whose keys may be absent are modelled with `Option`
fields (`dict.get(k)` returns `None`, modelled `none`, when `k` is absent).
Wall-clock time enters as explicit parameters (current IST hour, or
minute-of-day), HTTP traffic as explicit request/response values, and the
random source of `random.randint(0, 9)` as an explicit draw stream.
-/

namespace LappCrawler

/-- The three daily draw slots, in declaration order (`SLOT_CONFIG` in
dear_crawler.py, `TIME_ORDER` in singapore_crawler.py). -/
inductive Slot where
  | mor
  | day
  | evn
deriving DecidableEq, Repr

/-- Eligibility hour per slot, from `SLOT_CONFIG` in dear_crawler.py
(mor: 13, day: 18, evn: 20). -/
def slot_hour : Slot → Nat
  | .mor => 13
  | .day => 18
  | .evn => 20

/-- The declared slot sequence, in order. -/
def slotOrder : List Slot := [Slot.mor, Slot.day, Slot.evn]

/-- Position of a slot in the declared sequence. -/
def slot_index : Slot → Nat
  | .mor => 0
  | .day => 1
  | .evn => 2

/-- `TIME_ORDER` from singapore_crawler.py: draw-time labels paired with
slots, in page order. -/
def TIME_ORDER : List (String × Slot) :=
  [("12.30", Slot.mor), ("16.30", Slot.day), ("20.30", Slot.evn)]

/-- A day record as returned by the state API: a Python dict whose keys
`date`, `mor`, `day`, `evn` may each be absent (`none`). -/
structure Entry where
  date : Option String
  mor : Option String
  day : Option String
  evn : Option String
deriving DecidableEq, Repr

/-- `entry.get(slot_key)` for a slot key: `none` when the key is absent. -/
def Entry.get (e : Entry) : Slot → Option String
  | .mor => e.mor
  | .day => e.day
  | .evn => e.evn

/-- The synthetic day record `{"date": today, "mor": "-", "day": "-",
"evn": "-"}` built by both state fetchers. -/
def freshRecord (today : String) : Entry :=
  ⟨some today, some "-", some "-", some "-"⟩

/-- JSON bodies the state endpoint can return: a list of day records or a
single one. -/
inductive JVal where
  | list (es : List Entry)
  | single (e : Entry)

/-- Outcome of the HTTP GET of the state endpoint: a raised network
exception, or a status code with a body (`none` when `r.json()` raises). -/
inductive FetchResult where
  | netErr
  | ok (status : Nat) (body : Option JVal)

/-- The scan `for entry in data: if entry.get("date") == today: return
entry` of both state fetchers. -/
def findToday (today : String) : List Entry → Option Entry
  | [] => none
  | e :: rest => if e.date = some today then some e else findToday today rest

/-- `api_get_today_state` from dear_crawler.py: try the GET
(`raise_for_status`, `r.json()`), scan a list body for today's entry,
return a non-list body unchanged; on any exception or missing entry return
the synthetic record. -/
def api_get_today_state (today : String) (r : FetchResult) : Entry :=
  match r with
  | .netErr => freshRecord today
  | .ok status body =>
    if 400 ≤ status then freshRecord today
    else
      match body with
      | none => freshRecord today
      | some (.single e) => e
      | some (.list es) =>
        match findToday today es with
        | some e => e
        | none => freshRecord today

/-- `api_get_today_state` from singapore_crawler.py: identical to the dear
variant except that a 404 status returns the synthetic record before
`raise_for_status` is consulted. -/
def api_get_today_state_sg (today : String) (r : FetchResult) : Entry :=
  match r with
  | .netErr => freshRecord today
  | .ok status body =>
    if status = 404 then freshRecord today
    else if 400 ≤ status then freshRecord today
    else
      match body with
      | none => freshRecord today
      | some (.single e) => e
      | some (.list es) =>
        match findToday today es with
        | some e => e
        | none => freshRecord today

/-- `get_needed_slots` from dear_crawler.py (cumulative planner): append
each slot whose hour has passed and whose recorded value is the
placeholder, in declaration order. `hour` is the current IST hour. -/
def get_needed_slots (db : Entry) (hour : Nat) : List Slot :=
  (if 13 ≤ hour ∧ db.get .mor = some "-" then [Slot.mor] else []) ++
  (if 18 ≤ hour ∧ db.get .day = some "-" then [Slot.day] else []) ++
  (if 20 ≤ hour ∧ db.get .evn = some "-" then [Slot.evn] else [])

/-- Loop body of `slots_to_crawl` from singapore_crawler.py: walk the
remaining `TIME_ORDER` entries, collect placeholder slots, and stop after
handling `current_slot`. -/
def slotsToCrawlGo (db : Entry) (current_slot : Slot) :
    List (String × Slot) → List Slot
  | [] => []
  | (_, s) :: rest =>
    let here := if db.get s = some "-" then [s] else []
    if s = current_slot then here else here ++ slotsToCrawlGo db current_slot rest

/-- `slots_to_crawl` from singapore_crawler.py (sequential planner). -/
def slots_to_crawl (db : Entry) (current_slot : Slot) : List Slot :=
  slotsToCrawlGo db current_slot TIME_ORDER

/-- `detect_time_slot` from singapore_crawler.py: map the IST minute of day
to the current slot window (none before 12:30). -/
def detect_time_slot (hour minute : Nat) : Option Slot :=
  let current_total_minutes := hour * 60 + minute
  if current_total_minutes < 750 then none
  else if current_total_minutes < 990 then some .mor
  else if current_total_minutes < 1230 then some .day
  else some .evn

/-- The three digit suffixes derived from a located number. -/
structure Digits where
  l1 : String
  l2 : String
  l3 : String
deriving DecidableEq, Repr

/-- Python `num[-k:]` on a string: the rightmost `k` characters (the whole
string when `k` exceeds its length, matching Python slice clamping). -/
def pyTail (num : String) (k : Nat) : String :=
  String.mk (num.data.drop (num.data.length - k))

/-- The suffix derivation `{"l1": num[-1], "l2": num[-2:], "l3": num[-3:]}`
of `extract_digits` in dear_crawler.py (`num[-1]` coincides with `num[-1:]`
on the nonempty strings the regex produces). -/
def digit_suffixes (num : String) : Digits :=
  ⟨pyTail num 1, pyTail num 2, pyTail num 3⟩

/-- The suffix dict `{"last_1": num[-1], "last_2": num[-2:], "last_3":
num[-3:]}` of `extract_digits_from_pdf_bytes` in singapore_crawler.py. -/
structure PdfDigits where
  last_1 : String
  last_2 : String
  last_3 : String
deriving DecidableEq, Repr

/-- Suffix derivation of `extract_digits_from_pdf_bytes` applied to the
number captured by its regex group. -/
def pdf_digit_suffixes (num : String) : PdfDigits :=
  ⟨pyTail num 1, pyTail num 2, pyTail num 3⟩

/-- `re.search(r'\d{5}', text)` over the character list of `text`: the
leftmost window of 5 consecutive digit characters, if any. -/
def findRun5 : List Char → Option (List Char)
  | [] => none
  | c :: cs =>
    if 5 ≤ (c :: cs).length ∧ ((c :: cs).take 5).all Char.isDigit then
      some ((c :: cs).take 5)
    else findRun5 cs

/-- `extract_digits` from dear_crawler.py, with the EasyOCR reader as a
black box already applied: join the recognized fragments with spaces,
search for the first 5-digit run, derive the suffixes; raise `ValueError`
with a 50-character sample of the text when no run is found. -/
def extract_digits (results : List String) : Except String Digits :=
  let full_text := String.intercalate " " results
  match findRun5 full_text.data with
  | some num => .ok (digit_suffixes (String.mk num))
  | none =>
    .error ("1st Prize not detected. OCR saw: " ++ String.mk (full_text.data.take 50))

/-- The publish payload dict `{"date": ..., "mor": ..., "day": ...,
"evn": ...}`: every key present. -/
structure Payload where
  date : String
  mor : String
  day : String
  evn : String
deriving DecidableEq, Repr

/-- Python dict assignment `payload[slot] = val` for a slot key. -/
def Payload.setSlot (p : Payload) (s : Slot) (v : String) : Payload :=
  match s with
  | .mor => { p with mor := v }
  | .day => { p with day := v }
  | .evn => { p with evn := v }

/-- Read a slot key of a payload. -/
def Payload.getSlot (p : Payload) : Slot → String
  | .mor => p.mor
  | .day => p.day
  | .evn => p.evn

/-- The payload built by `post_data` (dear) and `post_digit` (singapore):
start from `{"date": today, "mor": "-", "day": "-", "evn": "-"}` and
overwrite the target slot. -/
def mkPayload (today : String) (slot : Slot) (v : String) : Payload :=
  (Payload.mk today "-" "-" "-").setSlot slot v

/-- The digit endpoints posted to by `post_data` in dear_crawler.py. -/
def endpoints : List String := ["last-digit", "last-two-digit", "last-three-digit"]

/-- The digit-API posts made by `post_data` in dear_crawler.py: one
(endpoint, payload) pair per suffix length. -/
def post_data_payloads (today : String) (slot : Slot) (digits : Digits) :
    List (String × Payload) :=
  (endpoints.zip [digits.l1, digits.l2, digits.l3]).map
    (fun ev => (ev.1, mkPayload today slot ev.2))

/-- `post_digit` from singapore_crawler.py: the request it sends. -/
def post_digit (api today : String) (slot : Slot) (value : String) :
    String × Payload :=
  (api, mkPayload today slot value)

/-- An HTTP POST made while processing a slot in dear_crawler.py's main
loop: a digit upsert or the fax snapshot upload. -/
inductive Post where
  | digit (ep : String) (p : Payload)
  | fax (date : String) (time : Slot)
deriving DecidableEq, Repr

/-- All posts made by `post_data` in dear_crawler.py: the three digit
upserts followed by the snapshot upload. -/
def post_data_posts (today : String) (slot : Slot) (digits : Digits) : List Post :=
  (post_data_payloads today slot digits).map (fun ev => Post.digit ev.1 ev.2) ++
  [Post.fax today slot]

/-- Membership test of Python `needle in hay` on strings, via the char
lists. -/
def containsSubAux (needle : List Char) : List Char → Bool
  | [] => needle.isEmpty
  | c :: rest => needle.isPrefixOf (c :: rest) || containsSubAux needle rest

/-- Python `needle in hay` for strings. -/
def pyIn (needle hay : String) : Bool :=
  containsSubAux needle.data hay.data

/-- Zero-padded two digits, as `%m` in `strftime`. -/
def pad2 (n : Nat) : String :=
  if n < 10 then "0" ++ toString n else toString n

/-- Zero-padded four digits, as `%Y` in `strftime`. -/
def pad4 (n : Nat) : String :=
  if n < 10 then "000" ++ toString n
  else if n < 100 then "00" ++ toString n
  else if n < 1000 then "0" ++ toString n
  else toString n

/-- `ist_now.strftime("/%Y/%m/")` from dear_crawler.py's date gate. -/
def date_path (year month : Nat) : String :=
  "/" ++ pad4 year ++ "/" ++ pad2 month ++ "/"

/-- Outcome of one slot iteration in dear_crawler.py's main loop. -/
inductive SlotOutcome where
  | noImage
  | staleSkip
  | extractFailed
  | processed (d : Digits)
deriving DecidableEq, Repr

/-- One iteration of the slot loop in dear_crawler.py's `main`, after the
page fetch: locate the image tag (already resolved to its `src`), apply
the date gate `if date_path not in img_url: continue`, extract digits from
the downloaded image (the OCR fragments stand in for the image bytes), and
post. Extraction failure is the caught per-slot exception. Returns the
outcome and the posts made. -/
def process_slot (dp : String) (img_src : Option String) (ocr : List String)
    (today : String) (slot : Slot) : SlotOutcome × List Post :=
  match img_src with
  | none => (.noImage, [])
  | some img_url =>
    if pyIn dp img_url then
      match extract_digits ocr with
      | .ok d => (.processed d, post_data_posts today slot d)
      | .error _ => (.extractFailed, [])
    else (.staleSkip, [])

/-- Outcome of the lucky-number existence GET in lucky_number_updater.py:
a raised exception (network or malformed JSON), or a status code with the
`lucky` field of the decoded body (`none` when the key is absent). -/
inductive LuckyFetch where
  | exc
  | ok (status : Nat) (lucky : Option String)

/-- Python truthiness of `data.get("lucky")`: absent and empty strings are
falsy. -/
def pyTruthy : Option String → Bool
  | none => false
  | some s => !(s == "")

/-- Python `data.get("lucky") != ""`. -/
def neqEmpty : Option String → Bool
  | none => true
  | some s => !(s == "")

/-- `check_if_exists` from lucky_number_updater.py: true only on a 200
response whose `lucky` field is truthy and non-empty; false on any other
status or raised exception. -/
def check_if_exists : LuckyFetch → Bool
  | .exc => false
  | .ok status lucky =>
    if status = 200 then
      if pyTruthy lucky && neqEmpty lucky then true else false
    else false

/-- `generate_lucky_string` from lucky_number_updater.py, with
`random.randint(0, 9)` as an explicit draw stream: the comprehension makes
4 independent draws and joins their decimal strings with ", ". -/
def generate_lucky_string (rand : Nat → Nat) : String :=
  String.intercalate ", " ((List.range 4).map (fun i => toString (rand i)))

/-- The JSON body POSTed to the lucky-number API by `update_numbers`. -/
structure LuckyPost where
  type : String
  date : String
  lucky : String
  active : Bool
deriving DecidableEq, Repr

/-- `TYPES` from lucky_number_updater.py. -/
def TYPES : List String := ["singapore", "dear"]

/-- `update_numbers` from lucky_number_updater.py: for each category, skip
when `check_if_exists` reports existing data, otherwise POST a freshly
generated value with the active flag. `fetch` is the per-category outcome
of the existence GET, `gen` the per-category generated string. Returns the
posts made. -/
def update_numbers (fetch : String → LuckyFetch) (gen : String → String)
    (today : String) : List LuckyPost :=
  TYPES.filterMap (fun t =>
    if check_if_exists (fetch t) then none
    else some ⟨t, today, gen t, true⟩)

/-- The failure cases of the state fetch: raised network exception,
non-success status (`raise_for_status` raises at 400 and above), or a body
that fails to decode. -/
def fetchFailed : FetchResult → Prop
  | .netErr => True
  | .ok status body => 400 ≤ status ∨ body = none

/-- A window of 5 consecutive digit characters at position `i` of `l`. -/
def digitWindow (l : List Char) (i : Nat) : Prop :=
  5 ≤ (l.drop i).length ∧ ((l.drop i).take 5).all Char.isDigit = true

/-! ## Helper lemmas -/

lemma findToday_eq_find? (today : String) (es : List Entry) :
    findToday today es = es.find? (fun e => e.date == some today) := by
  induction es with
  | nil => rfl
  | cons e rest ih =>
    by_cases h : e.date = some today
    · rw [List.find?_cons_of_pos _ (by simp [h])]
      simp [findToday, h]
    · rw [List.find?_cons_of_neg _ (by simp [h])]
      simp [findToday, h, ih]

lemma findRun5_none (l : List Char) (h : findRun5 l = none) :
    ∀ i, ¬ digitWindow l i := by
  induction l with
  | nil =>
    intro i hw
    simp [digitWindow] at hw
  | cons c cs ih =>
    intro i hw
    rw [findRun5] at h
    split_ifs at h with hc
    cases i with
    | zero => exact hc ⟨hw.1, hw.2⟩
    | succ j => exact ih h j hw

lemma findRun5_some (l w : List Char) (h : findRun5 l = some w) :
    ∃ i, digitWindow l i ∧ (∀ j, j < i → ¬ digitWindow l j)
      ∧ w = (l.drop i).take 5 := by
  induction l with
  | nil => exact Option.noConfusion h
  | cons c cs ih =>
    rw [findRun5] at h
    split_ifs at h with hc
    · refine ⟨0, ⟨hc.1, hc.2⟩, ?_, (Option.some.inj h).symm⟩
      intro j hj
      omega
    · obtain ⟨i, hwi, hmin, hwe⟩ := ih h
      refine ⟨i + 1, hwi, ?_, hwe⟩
      intro j hj
      cases j with
      | zero => exact fun hw0 => hc ⟨hw0.1, hw0.2⟩
      | succ k => exact hmin k (by omega)

lemma mem_slotOrder (s : Slot) : s ∈ slotOrder := by
  cases s <;> simp [slotOrder]

lemma get_needed_slots_eq_filter (db : Entry) (hour : Nat) :
    get_needed_slots db hour
      = slotOrder.filter (fun s => decide (slot_hour s ≤ hour ∧ db.get s = some "-")) := by
  simp only [get_needed_slots, slotOrder, List.filter_cons, List.filter_nil,
    decide_eq_true_eq, slot_hour]
  split_ifs <;> simp_all

lemma slots_to_crawl_eq_filter (db : Entry) (cur : Slot) :
    slots_to_crawl db cur
      = (slotOrder.take (slot_index cur + 1)).filter
          (fun s => decide (db.get s = some "-")) := by
  cases cur <;>
    simp only [slots_to_crawl, slotsToCrawlGo, TIME_ORDER, slotOrder, slot_index,
      List.take, List.filter_cons, List.filter_nil, decide_eq_true_eq] <;>
    split_ifs <;> simp_all

lemma pyTail_length (s : String) (k : Nat) (h : k ≤ s.length) :
    (pyTail s k).length = k := by
  show (s.data.drop (s.data.length - k)).length = k
  rw [List.length_drop]
  have : k ≤ s.data.length := h
  omega

lemma pyTail_is_suffix (s : String) (k : Nat) :
    ∃ p : String, s = p ++ pyTail s k := by
  refine ⟨String.mk (s.data.take (s.data.length - k)), ?_⟩
  cases s with
  | mk l =>
    show String.mk l = String.mk (l.take (l.length - k) ++ l.drop (l.length - k))
    rw [List.take_append_drop]

/-! ## Claim theorems -/

/-- C1. Cumulative planner: for every day record `db` and current IST hour
`hour`, `get_needed_slots` returns slot `s` iff `hour` is at or past `s`'s
eligibility hour (13 for mor, 18 for day, 20 for evn) and `db`'s value for
`s` is the placeholder `"-"`; the output is the declaration-order list
filtered by that condition. -/
theorem cumulative_planner_spec (db : Entry) (hour : Nat) :
    (∀ s : Slot, s ∈ get_needed_slots db hour ↔
      slot_hour s ≤ hour ∧ db.get s = some "-")
    ∧ get_needed_slots db hour
        = slotOrder.filter (fun s => decide (slot_hour s ≤ hour ∧ db.get s = some "-"))
    ∧ slot_hour Slot.mor = 13 ∧ slot_hour Slot.day = 18 ∧ slot_hour Slot.evn = 20 := by
  refine ⟨fun s => ?_, get_needed_slots_eq_filter db hour, rfl, rfl, rfl⟩
  rw [get_needed_slots_eq_filter]
  simp only [List.mem_filter, decide_eq_true_eq]
  exact ⟨fun h => h.2, fun h => ⟨mem_slotOrder s, h⟩⟩

/-- Witness for C1: at hour 13 with a fully placeholder record, mor is
needed. -/
theorem cumulative_planner_spec_witness :
    Slot.mor ∈ get_needed_slots (freshRecord "2026-02-01") 13 :=
  ((cumulative_planner_spec (freshRecord "2026-02-01") 13).1 Slot.mor).2
    ⟨by decide, rfl⟩

/-- C2. Sequential planner: `slots_to_crawl` returns exactly the slots at
or before `current_slot` in the declared sequence whose `db` value is the
placeholder, in declared order; no slot strictly after `current_slot` is
ever returned. -/
theorem sequential_planner_spec (db : Entry) (current_slot : Slot) :
    slots_to_crawl db current_slot
      = (slotOrder.take (slot_index current_slot + 1)).filter
          (fun s => decide (db.get s = some "-"))
    ∧ (∀ s : Slot, s ∈ slots_to_crawl db current_slot ↔
        slot_index s ≤ slot_index current_slot ∧ db.get s = some "-")
    ∧ (∀ s : Slot, slot_index current_slot < slot_index s →
        s ∉ slots_to_crawl db current_slot) := by
  refine ⟨slots_to_crawl_eq_filter db current_slot, fun s => ?_, fun s h hmem => ?_⟩
  · rw [slots_to_crawl_eq_filter]
    cases current_slot <;> cases s <;>
      simp_all [slotOrder, slot_index, List.take, List.mem_filter]
  · rw [slots_to_crawl_eq_filter] at hmem
    cases current_slot <;> cases s <;>
      simp_all [slotOrder, slot_index, List.take, List.mem_filter]

/-- Witness for C2 at a concrete record and current slot. -/
theorem sequential_planner_spec_witness :
    Slot.evn ∉ slots_to_crawl (freshRecord "2026-02-01") Slot.mor :=
  (sequential_planner_spec (freshRecord "2026-02-01") Slot.mor).2.2 Slot.evn (by decide)

/-- C3. Suffix derivation: for every located number string of length at
least 3, the derived values are exactly the rightmost substrings of
lengths 1, 2 and 3, with no padding; the PDF extractor derives the same
three strings, and for "82497" the results are "7", "97", "497". -/
theorem suffix_derivation_spec (num : String) (h : 3 ≤ num.length) :
    ((digit_suffixes num).l1.length = 1 ∧ ∃ p, num = p ++ (digit_suffixes num).l1)
    ∧ ((digit_suffixes num).l2.length = 2 ∧ ∃ p, num = p ++ (digit_suffixes num).l2)
    ∧ ((digit_suffixes num).l3.length = 3 ∧ ∃ p, num = p ++ (digit_suffixes num).l3)
    ∧ (pdf_digit_suffixes num).last_1 = (digit_suffixes num).l1
    ∧ (pdf_digit_suffixes num).last_2 = (digit_suffixes num).l2
    ∧ (pdf_digit_suffixes num).last_3 = (digit_suffixes num).l3
    ∧ digit_suffixes "82497" = ⟨"7", "97", "497"⟩ := by
  refine ⟨⟨pyTail_length num 1 (by omega), pyTail_is_suffix num 1⟩,
    ⟨pyTail_length num 2 (by omega), pyTail_is_suffix num 2⟩,
    ⟨pyTail_length num 3 h, pyTail_is_suffix num 3⟩,
    rfl, rfl, rfl, by decide⟩

/-- Witness for C3 at the spec's concrete number "82497". -/
theorem suffix_derivation_spec_witness :
    (3 ≤ ("82497" : String).length)
    ∧ ((digit_suffixes "82497").l3.length = 3
        ∧ ∃ p, ("82497" : String) = p ++ (digit_suffixes "82497").l3) :=
  ⟨by decide, (suffix_derivation_spec "82497" (by decide)).2.2.1⟩

/-- C4. Publish payload shape: the payload built for a target slot maps
that slot to the value, both other slots to the placeholder, and carries
the date; `post_data` posts one such payload per suffix endpoint, and for
slot mor with value "97" the payload is `⟨today, "97", "-", "-"⟩`. -/
theorem publish_payload_spec (today : String) (s : Slot) (v : String) (d : Digits) :
    (mkPayload today s v).date = today
    ∧ (mkPayload today s v).getSlot s = v
    ∧ (∀ s' : Slot, s' ≠ s → (mkPayload today s v).getSlot s' = "-")
    ∧ post_data_payloads today s d
        = [("last-digit", mkPayload today s d.l1),
           ("last-two-digit", mkPayload today s d.l2),
           ("last-three-digit", mkPayload today s d.l3)]
    ∧ mkPayload today Slot.mor "97" = ⟨today, "97", "-", "-"⟩ := by
  refine ⟨by cases s <;> rfl, by cases s <;> rfl, ?_, rfl, rfl⟩
  intro s' hne
  cases s <;> cases s' <;>
    simp_all [mkPayload, Payload.setSlot, Payload.getSlot]

/-- Witness for C4: the non-target slot of a concrete payload holds the
placeholder. -/
theorem publish_payload_spec_witness :
    (mkPayload "2026-02-01" Slot.mor "97").getSlot Slot.day = "-" :=
  (publish_payload_spec "2026-02-01" Slot.mor "97" ⟨"7", "97", "497"⟩).2.2.1
    Slot.day (by decide)

/-- C5. State fetcher fail-open, for both crawler variants: any error
(network, non-success status, malformed body) yields the synthetic
placeholder record; a list body yields its first entry dated `today`, or
the synthetic record when none matches; a non-list body is returned
unchanged. -/
theorem state_fetcher_spec (today : String) (r : FetchResult) :
    (fetchFailed r →
      api_get_today_state today r = freshRecord today
      ∧ api_get_today_state_sg today r = freshRecord today)
    ∧ (∀ status es, r = .ok status (some (.list es)) → status < 400 →
      api_get_today_state today r
          = (es.find? (fun e => e.date == some today)).getD (freshRecord today)
      ∧ api_get_today_state_sg today r
          = (es.find? (fun e => e.date == some today)).getD (freshRecord today))
    ∧ (∀ status e, r = .ok status (some (.single e)) → status < 400 →
      api_get_today_state today r = e ∧ api_get_today_state_sg today r = e) := by
  refine ⟨fun hf => ?_, ?_, ?_⟩
  · cases r with
    | netErr => exact ⟨rfl, rfl⟩
    | ok status body =>
      rcases hf with hst | hb
      · constructor
        · simp [api_get_today_state, hst]
        · simp only [api_get_today_state_sg]
          split_ifs <;> simp_all
      · subst hb
        constructor
        · simp only [api_get_today_state]
          split_ifs <;> rfl
        · simp only [api_get_today_state_sg]
          split_ifs <;> rfl
  · rintro status es rfl hlt
    constructor
    · simp only [api_get_today_state, if_neg (by omega : ¬ 400 ≤ status)]
      rw [findToday_eq_find?]
      cases es.find? (fun e => e.date == some today) <;> rfl
    · simp only [api_get_today_state_sg, if_neg (by omega : ¬ status = 404),
        if_neg (by omega : ¬ 400 ≤ status)]
      rw [findToday_eq_find?]
      cases es.find? (fun e => e.date == some today) <;> rfl
  · rintro status e rfl hlt
    constructor
    · simp [api_get_today_state, if_neg (by omega : ¬ 400 ≤ status)]
    · simp [api_get_today_state_sg, if_neg (by omega : ¬ status = 404),
        if_neg (by omega : ¬ 400 ≤ status)]

/-- Witness for C5: a network error and a matching list entry, at concrete
inputs. -/
theorem state_fetcher_spec_witness :
    api_get_today_state "2026-02-01" FetchResult.netErr = freshRecord "2026-02-01"
    ∧ api_get_today_state "2026-02-01"
        (FetchResult.ok 200 (some (JVal.list [freshRecord "2026-02-01"])))
      = freshRecord "2026-02-01" := by
  constructor
  · exact ((state_fetcher_spec "2026-02-01" FetchResult.netErr).1 trivial).1
  · have h := ((state_fetcher_spec "2026-02-01"
      (FetchResult.ok 200 (some (JVal.list [freshRecord "2026-02-01"])))).2.1
      200 [freshRecord "2026-02-01"] rfl (by omega)).1
    rw [h]
    decide

/-- C6. Image extraction: the extractor joins the OCR fragments with
spaces; on failure the error message is the fixed prefix plus the joined
text truncated to 50 characters and no 5-digit window exists anywhere; on
success the result is the suffixes of the leftmost window of 5 consecutive
digits; and when no window exists the extractor does fail. -/
theorem image_extractor_spec (results : List String) :
    (∀ msg, extract_digits results = .error msg →
      (∀ i, ¬ digitWindow (String.intercalate " " results).data i)
      ∧ msg = "1st Prize not detected. OCR saw: "
          ++ String.mk ((String.intercalate " " results).data.take 50))
    ∧ (∀ d, extract_digits results = .ok d →
      ∃ i, digitWindow (String.intercalate " " results).data i
        ∧ (∀ j, j < i → ¬ digitWindow (String.intercalate " " results).data j)
        ∧ d = digit_suffixes (String.mk
            (((String.intercalate " " results).data.drop i).take 5)))
    ∧ ((∀ i, ¬ digitWindow (String.intercalate " " results).data i) →
      ∃ msg, extract_digits results = .error msg) := by
  cases hf : findRun5 (String.intercalate " " results).data with
  | none =>
    refine ⟨fun msg hmsg => ?_, fun d hd => ?_, fun h0 => ?_⟩
    · simp only [extract_digits, hf] at hmsg
      exact ⟨findRun5_none _ hf, (Except.error.inj hmsg).symm⟩
    · simp only [extract_digits, hf] at hd
      exact Except.noConfusion hd
    · exact ⟨"1st Prize not detected. OCR saw: "
        ++ String.mk ((String.intercalate " " results).data.take 50),
        by simp only [extract_digits, hf]⟩
  | some w =>
    obtain ⟨i, hwi, hmin, hwe⟩ := findRun5_some _ w hf
    refine ⟨fun msg hmsg => ?_, fun d hd => ?_, fun h0 => absurd hwi (h0 i)⟩
    · simp only [extract_digits, hf] at hmsg
      exact Except.noConfusion hmsg
    · simp only [extract_digits, hf] at hd
      exact ⟨i, hwi, hmin, by rw [← Except.ok.inj hd, hwe]⟩

/-- Witness for C6: a single fragment "82497" extracts the suffixes of the
leftmost 5-digit window. -/
theorem image_extractor_spec_witness :
    ∃ i, digitWindow (String.intercalate " " ["82497"]).data i
      ∧ (∀ j, j < i → ¬ digitWindow (String.intercalate " " ["82497"]).data j)
      ∧ (⟨"7", "97", "497"⟩ : Digits)
          = digit_suffixes (String.mk
              (((String.intercalate " " ["82497"]).data.drop i).take 5)) :=
  (image_extractor_spec ["82497"]).2.1 ⟨"7", "97", "497"⟩ rfl

/-- C7 counterexample: a record with the slot keys absent entirely is not
treated like one holding the placeholder — at hour 23 all slots are
eligible, yet neither planner marks any absent slot as needed. -/
theorem missing_slot_counterexample :
    get_needed_slots ⟨some "2026-02-01", none, none, none⟩ 23
        ≠ get_needed_slots (freshRecord "2026-02-01") 23
    ∧ slots_to_crawl ⟨some "2026-02-01", none, none, none⟩ Slot.evn
        ≠ slots_to_crawl (freshRecord "2026-02-01") Slot.evn
    ∧ get_needed_slots ⟨some "2026-02-01", none, none, none⟩ 23 = []
    ∧ slots_to_crawl ⟨some "2026-02-01", none, none, none⟩ Slot.evn = [] := by
  decide

/-- C7 amended: a slot whose key is absent from the fetched record is
never marked as needed by either planner — the absent key behaves like an
already-recorded value, not like the placeholder. -/
theorem missing_slot_amended (db : Entry) (hour : Nat) (current_slot : Slot)
    (s : Slot) (h : db.get s = none) :
    s ∉ get_needed_slots db hour ∧ s ∉ slots_to_crawl db current_slot := by
  constructor
  · intro hmem
    rw [get_needed_slots_eq_filter] at hmem
    simp [List.mem_filter, h] at hmem
  · intro hmem
    rw [slots_to_crawl_eq_filter] at hmem
    simp [List.mem_filter, h] at hmem

/-- Witness for C7 amended: the absent mor key is not needed at hour 23. -/
theorem missing_slot_amended_witness :
    Slot.mor ∉ get_needed_slots ⟨some "2026-02-01", none, some "-", some "-"⟩ 23 :=
  (missing_slot_amended ⟨some "2026-02-01", none, some "-", some "-"⟩ 23
    Slot.evn Slot.mor rfl).1

lemma toString_digit (n : Nat) (h : n < 10) :
    ∃ c : Char, c.isDigit = true ∧ toString n = String.mk [c] := by
  interval_cases n
  · exact ⟨'0', by decide, by decide⟩
  · exact ⟨'1', by decide, by decide⟩
  · exact ⟨'2', by decide, by decide⟩
  · exact ⟨'3', by decide, by decide⟩
  · exact ⟨'4', by decide, by decide⟩
  · exact ⟨'5', by decide, by decide⟩
  · exact ⟨'6', by decide, by decide⟩
  · exact ⟨'7', by decide, by decide⟩
  · exact ⟨'8', by decide, by decide⟩
  · exact ⟨'9', by decide, by decide⟩

/-- C8. Lucky-number backfill: with `random.randint(0, 9)` modelled as a
draw stream of values in [0, 9], the generated string is exactly 4 digit
characters joined by ", ", using 4 independent draws; and a category whose
existence check reports existing data receives no POST. -/
theorem lucky_backfill_spec (rand : Nat → Nat) (hr : ∀ i, rand i < 10)
    (fetch : String → LuckyFetch) (gen : String → String) (today t : String)
    (ht : t ∈ TYPES) (he : check_if_exists (fetch t) = true) :
    (∃ c0 c1 c2 c3 : Char,
      (c0.isDigit ∧ c1.isDigit ∧ c2.isDigit ∧ c3.isDigit)
      ∧ (generate_lucky_string rand).data
          = [c0, ',', ' ', c1, ',', ' ', c2, ',', ' ', c3])
    ∧ (∀ p ∈ update_numbers fetch gen today, p.type ≠ t) := by
  constructor
  · obtain ⟨c0, hd0, h0⟩ := toString_digit (rand 0) (hr 0)
    obtain ⟨c1, hd1, h1⟩ := toString_digit (rand 1) (hr 1)
    obtain ⟨c2, hd2, h2⟩ := toString_digit (rand 2) (hr 2)
    obtain ⟨c3, hd3, h3⟩ := toString_digit (rand 3) (hr 3)
    refine ⟨c0, c1, c2, c3, ⟨hd0, hd1, hd2, hd3⟩, ?_⟩
    have hrange : List.range 4 = [0, 1, 2, 3] := rfl
    rw [generate_lucky_string, hrange]
    simp only [List.map]
    rw [h0, h1, h2, h3]
    rfl
  · intro p hp heq
    rw [update_numbers, List.mem_filterMap] at hp
    obtain ⟨u, hu, hpost⟩ := hp
    split_ifs at hpost with hchk
    apply hchk
    have hpu : p = ⟨u, today, gen u, true⟩ := (Option.some.inj hpost).symm
    have hut : u = t := by
      rw [hpu] at heq
      exact heq
    rw [hut]
    exact he

/-- Witness for C8: concrete draw stream, and a category whose check
succeeds is not posted. -/
theorem lucky_backfill_spec_witness :
    (∃ c0 c1 c2 c3 : Char,
      (c0.isDigit ∧ c1.isDigit ∧ c2.isDigit ∧ c3.isDigit)
      ∧ (generate_lucky_string (fun i => i % 10)).data
          = [c0, ',', ' ', c1, ',', ' ', c2, ',', ' ', c3])
    ∧ (∀ p ∈ update_numbers (fun _ => LuckyFetch.ok 200 (some "9, 8, 0, 7"))
        (fun _ => "1, 2, 3, 4") "2026-02-01", p.type ≠ "dear") :=
  lucky_backfill_spec (fun i => i % 10) (fun i => Nat.mod_lt i (by omega))
    (fun _ => LuckyFetch.ok 200 (some "9, 8, 0, 7")) (fun _ => "1, 2, 3, 4")
    "2026-02-01" "dear" (by decide) (by decide)

/-- C9. Stale-content date gate: when the located image URL does not
contain the `/YYYY/MM/` path of the current IST date, the slot iteration
ends in a skip with no digit POST and no snapshot POST; and the path built
for 2026-02 is `"/2026/02/"`. -/
theorem date_gate_spec (dp img_url : String) (ocr : List String)
    (today : String) (slot : Slot) (h : pyIn dp img_url = false) :
    process_slot dp (some img_url) ocr today slot = (SlotOutcome.staleSkip, [])
    ∧ date_path 2026 2 = "/2026/02/" := by
  constructor
  · simp [process_slot, h]
  · decide

/-- Witness for C9: URL path `/2026/01/` while the local date is 2026-02
leads to a skip with no posts. -/
theorem date_gate_spec_witness :
    pyIn (date_path 2026 2) "https://site.one/uploads/2026/01/result.jpg" = false
    ∧ process_slot (date_path 2026 2)
        (some "https://site.one/uploads/2026/01/result.jpg")
        [] "2026-02-15" Slot.mor = (SlotOutcome.staleSkip, []) :=
  ⟨by decide,
    (date_gate_spec (date_path 2026 2) "https://site.one/uploads/2026/01/result.jpg"
      [] "2026-02-15" Slot.mor (by decide)).1⟩

/-- C10. The lucky existence check returns false on a raised exception and
on every non-200 status, so a category whose check failed that way is
POSTed a fresh value by `update_numbers` even if data exists remotely. -/
theorem lucky_check_fail_open (status : Nat) (lucky : Option String)
    (hst : status ≠ 200) (fetch : String → LuckyFetch) (gen : String → String)
    (today t : String) (ht : t ∈ TYPES)
    (herr : fetch t = LuckyFetch.exc
      ∨ ∃ st l, fetch t = LuckyFetch.ok st l ∧ st ≠ 200) :
    check_if_exists LuckyFetch.exc = false
    ∧ check_if_exists (LuckyFetch.ok status lucky) = false
    ∧ check_if_exists (fetch t) = false
    ∧ (⟨t, today, gen t, true⟩ : LuckyPost) ∈ update_numbers fetch gen today := by
  have hnon : ∀ st l, st ≠ 200 → check_if_exists (LuckyFetch.ok st l) = false := by
    intro st l hne
    simp [check_if_exists, hne]
  have hchk : check_if_exists (fetch t) = false := by
    rcases herr with h | ⟨st, l, h, hne⟩
    · rw [h]
      rfl
    · rw [h]
      exact hnon st l hne
  refine ⟨rfl, hnon status lucky hst, hchk, ?_⟩
  rw [update_numbers, List.mem_filterMap]
  exact ⟨t, ht, by rw [if_neg (by simp [hchk])]⟩

/-- Witness for C10: a 500-status check is false, and a category whose
GET raised is posted a fresh value. -/
theorem lucky_check_fail_open_witness :
    check_if_exists (LuckyFetch.ok 500 (some "1, 2, 3, 4")) = false
    ∧ (⟨"dear", "2026-02-01", "9, 8, 0, 7", true⟩ : LuckyPost)
        ∈ update_numbers (fun _ => LuckyFetch.exc)
            (fun _ => "9, 8, 0, 7") "2026-02-01" := by
  have h := lucky_check_fail_open 500 (some "1, 2, 3, 4") (by omega)
    (fun _ => LuckyFetch.exc) (fun _ => "9, 8, 0, 7") "2026-02-01" "dear"
    (by decide) (Or.inl rfl)
  exact ⟨h.2.1, h.2.2.2⟩

end LappCrawler
